import Mathlib

/-!
Shallow embedding of `attrstance/validators.py`: a family of attrs-style
type-checking validators (`InstanceOf`, `SubclassOf`, `AllInstanceOf`,
`AllSubclassOf`), their factory functions, and the shared error-message
formatting helpers (`oxford_comma`, `error_message`, `format_message`).

Python runtime behaviour relevant to the library is modelled explicitly:
a closed universe of type objects with the runtime subclass relation,
`isinstance` / `issubclass` (the latter raising on a non-class first
argument), `iter` (raising on non-iterables), `frozenset` construction
(raising on unhashable elements), truthiness of generator objects, and
`str.format` applied to a generator object with a `:s` format spec
(`object.__format__` rejects any non-empty format spec with a TypeError).
Exceptions are modelled with `Except`; the exception's constructor
arguments are carried as a payload list.
-/

namespace Attrstance

/-- The closed universe of Python type objects the development quantifies
over: the builtin types used by the library and its tests, the metaclass
`type`, `object`, and the `Iterable` abstract base class. -/
inductive PyType
  | intT
  | boolT
  | floatT
  | strT
  | bytesT
  | listT
  | setT
  | frozensetT
  | typeT
  | noneT
  | objectT
  | iterableT
  deriving DecidableEq, Repr

/-- Types whose instances are iterable (register as subclasses of the
`Iterable` ABC). -/
def PyType.isIterableType : PyType → Bool
  | .listT => true
  | .setT => true
  | .frozensetT => true
  | .strT => true
  | .bytesT => true
  | _ => false

/-- The runtime subclass relation `issubclass(t, c)` on the closed universe:
reflexive, everything is a subclass of `object`, `bool` is a subclass of
`int`, and the iterable builtins are (virtual) subclasses of `Iterable`. -/
def isSubclassB (t c : PyType) : Bool :=
  t = c || c = .objectT || (t = .boolT && c = .intT)
    || (t.isIterableType && c = .iterableT)

mutual

/-- Python values: the builtin scalars and containers the library and its
tests touch, plus first-class type objects. -/
inductive PyVal
  | vint (n : Int)
  | vbool (b : Bool)
  | vstr (s : String)
  | vnone
  | vtype (t : PyType)
  | vlist (xs : PyValList)
  | vset (xs : PyValList)
  | vfrozenset (xs : PyValList)
  deriving DecidableEq

/-- A sequence of Python values (the contents of a container). -/
inductive PyValList
  | nil
  | cons (x : PyVal) (xs : PyValList)
  deriving DecidableEq

end

/-- View a container's contents as a Lean list. -/
def PyValList.toList : PyValList → List PyVal
  | .nil => []
  | .cons x xs => x :: toList xs

/-- Build container contents from a Lean list. -/
def PyValList.ofList : List PyVal → PyValList
  | [] => .nil
  | x :: xs => .cons x (ofList xs)

theorem PyValList.toList_ofList (l : List PyVal) : (PyValList.ofList l).toList = l := by
  induction l with
  | nil => rfl
  | cons x xs ih => simp [PyValList.ofList, PyValList.toList, ih]

/-- `type(v)`: the concrete runtime type of a value. -/
def pyTypeOf : PyVal → PyType
  | .vint _ => .intT
  | .vbool _ => .boolT
  | .vstr _ => .strT
  | .vnone => .noneT
  | .vtype _ => .typeT
  | .vlist _ => .listT
  | .vset _ => .setT
  | .vfrozenset _ => .frozensetT

/-- `isinstance(v, t)`: the value's concrete type is `t` or a subclass. -/
def pyIsinstance (v : PyVal) (t : PyType) : Bool :=
  isSubclassB (pyTypeOf v) t

/-- The `attrs` `Attribute` descriptor: the library only reads its name. -/
structure Attrib where
  name : String
  deriving DecidableEq, Repr

/-- Constructor arguments carried by a raised exception
(`TypeError(m, a, ...)`): message strings, the attribute descriptor,
values, and the whitelist frozenset. -/
inductive ExcArg
  | strA (s : String)
  | attrA (a : Attrib)
  | valA (v : PyVal)
  | setA (w : List PyVal)
  deriving DecidableEq

/-- A raised Python exception, by class and constructor arguments. -/
inductive PyErr
  | typeError (args : List ExcArg)
  | valueError (args : List ExcArg)
  | attributeError (missing : String)
  deriving DecidableEq

/-- `issubclass(v, c)`: raises `TypeError` when the first argument is not a
class. -/
def pyIssubclass (v : PyVal) (c : PyType) : Except PyErr Bool :=
  match v with
  | .vtype t => .ok (isSubclassB t c)
  | _ => .error (.typeError [.strA "issubclass() arg 1 must be a class"])

/-- A type object's `__name__`. -/
def PyType.pyName : PyType → String
  | .intT => "int"
  | .boolT => "bool"
  | .floatT => "float"
  | .strT => "str"
  | .bytesT => "bytes"
  | .listT => "list"
  | .setT => "set"
  | .frozensetT => "frozenset"
  | .typeT => "type"
  | .noneT => "NoneType"
  | .objectT => "object"
  | .iterableT => "Iterable"

/-- `iter(v)`: the element sequence of an iterable, or a `TypeError` for a
non-iterable value. Strings iterate over their one-character substrings. -/
def pyIter : PyVal → Except PyErr (List PyVal)
  | .vlist xs => .ok xs.toList
  | .vset xs => .ok xs.toList
  | .vfrozenset xs => .ok xs.toList
  | .vstr s => .ok (s.toList.map fun c => .vstr (String.mk [c]))
  | v => .error (.typeError [.strA ("'" ++ (pyTypeOf v).pyName ++ "' object is not iterable")])

/-- Hashability of a value: lists and sets are unhashable. -/
def pyHashable : PyVal → Bool
  | .vlist _ => false
  | .vset _ => false
  | _ => true

/-- `frozenset(args)`: deduplicates the elements; raises `TypeError` when
some element is unhashable. -/
def pyFrozenset (args : List PyVal) : Except PyErr PyVal :=
  if args.all pyHashable then .ok (.vfrozenset (.ofList args.dedup))
  else .error (.typeError [.strA "unhashable type"])

/-!
### Message formatting helpers
-/

/-- `oxford_comma` (validators.py lines 13-27): the items yielded by the
generator. With `n = 1 if len(args) > 1 else 0`, item `i` of
`enumerate(args, n)` yields the template `"\x7b!r\x7d"` while `i < len(args)` and
`"or \x7b!r\x7d"` otherwise. -/
def oxford_comma (args : List PyVal) : List String :=
  let n : Nat := if args.length > 1 then 1 else 0
  (List.range args.length).map fun k =>
    if k + n < args.length then "\x7b!r\x7d" else "or \x7b!r\x7d"

/-- An object passed as a positional argument to `str.format`: either a
string or a generator object (represented by the list of its yields). -/
inductive FmtObj
  | strObj (s : String)
  | genObj (items : List String)
  deriving DecidableEq, Repr

/-- Formatting one replacement field `\x7b:s\x7d` of `str.format`: a string
formats as itself; any other object falls back to `object.__format__`,
which raises `TypeError` on a non-empty format spec — in particular for a
generator object. -/
def formatSpecS : FmtObj → Except PyErr String
  | .strObj s => .ok s
  | .genObj _ =>
      .error (.typeError [.strA "unsupported format string passed to generator.__format__"])

/-- `error_message` (validators.py lines 30-48): builds the generator
`j = oxford_comma(*args)` and substitutes it into the single live
replacement field `\x7b:s\x7d` of the template (the doubled braces are escapes
that become literal braces). Passing the generator object itself to the
field raises, so the `.ok` continuation is unreachable. -/
def error_message (args : List PyVal) : Except PyErr String := do
  let j := FmtObj.genObj (oxford_comma args)
  let s ← formatSpecS j
  .ok ("'\x7bname:s\x7d' \x7bconstraint:s\x7d " ++ s ++
    " (\x7bcompliment:s\x7d \x7bvalue!r\x7d that is \x7bactual!r\x7d)")

/-- `repr` of a type object, as in CPython. -/
def typeRepr : PyType → String
  | .intT => "<class 'int'>"
  | .boolT => "<class 'bool'>"
  | .floatT => "<class 'float'>"
  | .strT => "<class 'str'>"
  | .bytesT => "<class 'bytes'>"
  | .listT => "<class 'list'>"
  | .setT => "<class 'set'>"
  | .frozensetT => "<class 'frozenset'>"
  | .typeT => "<class 'type'>"
  | .noneT => "<class 'NoneType'>"
  | .objectT => "<class 'object'>"
  | .iterableT => "typing.Iterable"

/-- `repr` of a value (container contents elided; only ever demanded on the
unreachable success continuation of `format_message`). -/
def pyRepr : PyVal → String
  | .vint n => toString n
  | .vbool b => if b then "True" else "False"
  | .vstr s => "'" ++ s ++ "'"
  | .vnone => "None"
  | .vtype t => typeRepr t
  | .vlist _ => "[...]"
  | .vset _ => "\x7b...\x7d"
  | .vfrozenset _ => "frozenset(\x7b...\x7d)"

/-- The keyword-substitution step `m.format(*t, name=..., constraint=...,
compliment=..., value=..., actual=...)` of `format_message`, filling the
named fields of the template. -/
def substContext (m : String) (a : Attrib) (s : String) (v : PyVal) (c : String) : String :=
  ((((String.replace m "\x7bname:s\x7d" a.name).replace "\x7bconstraint:s\x7d" c).replace
      "\x7bcompliment:s\x7d" s).replace "\x7bvalue!r\x7d" (pyRepr v)).replace
    "\x7bactual!r\x7d" (typeRepr (pyTypeOf v))

/-- `format_message(a, s, v, c, *t)` (validators.py lines 51-75): builds the
un-formatted message via `error_message` and then substitutes the error
context. Since `error_message` raises, the substitution step is
unreachable and the whole call raises. -/
def format_message (a : Attrib) (s : String) (v : PyVal) (c : String) (t : List PyVal) :
    Except PyErr String := do
  let m ← error_message t
  .ok (substContext m a s v c)

/-!
### TypeValidator and its whitelist validators
-/

/-- `len(v)` for the container shapes the library measures. -/
def pyLen : PyVal → Nat
  | .vlist xs => xs.toList.length
  | .vset xs => xs.toList.length
  | .vfrozenset xs => xs.toList.length
  | .vstr s => s.length
  | _ => 0

/-- The elements a `for` loop visits (empty for non-iterables; only demanded
after iterability is established). -/
def pyElems (v : PyVal) : List PyVal :=
  match pyIter v with
  | .ok xs => xs
  | .error _ => []

/-- The attrs `Attribute` descriptor of the `whitelist` field. -/
def whitelistAttr : Attrib := ⟨"whitelist"⟩

/-- `TypeValidator.is_frozenset` (lines 90-106): raise unless the passed
value is a frozenset. The raise path computes `format_message` first, whose
own TypeError propagates before `raise TypeError(m, a, v)` is reached. -/
def TypeValidator.is_frozenset (a : Attrib) (v : PyVal) : Except PyErr Unit :=
  if pyIsinstance v .frozensetT then .ok ()
  else do
    let m ← format_message a "is" v "must be" [.vtype .frozensetT]
    Except.error (.typeError [.strA m, .attrA a, .valA v])

/-- `TypeValidator.not_empty` (lines 108-123): raise unless `len(v) > 0`. -/
def TypeValidator.not_empty (a : Attrib) (v : PyVal) : Except PyErr Unit :=
  if pyLen v > 0 then .ok ()
  else do
    let m ← format_message a "is" v "must be non-empty" [.vtype .frozensetT]
    Except.error (.typeError [.strA m, .attrA a, .valA v])

/-- The element loop of `TypeValidator.only_types`: raise at the first
element that is not a type. -/
def onlyTypesGo (a : Attrib) : List PyVal → Except PyErr Unit
  | [] => .ok ()
  | x :: rest =>
      if pyIsinstance x .typeT then onlyTypesGo a rest
      else do
        let m ← format_message a "has" x "must contain" [.vtype .typeT]
        Except.error (.typeError [.strA m, .attrA a, .valA x])

/-- `TypeValidator.only_types` (lines 125-141): every element of the
whitelist must be a type. -/
def TypeValidator.only_types (a : Attrib) (v : PyVal) : Except PyErr Unit :=
  onlyTypesGo a (pyElems v)

/-- Which of the four concrete validator classes an object belongs to. -/
inductive ValidatorKind
  | instanceOfK
  | subclassOfK
  | allInstanceOfK
  | allSubclassOfK
  deriving DecidableEq

/-- A constructed validator object: its class and its (validated, immutable)
`whitelist` field, holding type objects. -/
structure TypeValidatorObj where
  kind : ValidatorKind
  whitelist : List PyType
  deriving DecidableEq

/-- Extract the type objects out of validated whitelist contents. -/
def typesOf (xs : List PyVal) : List PyType :=
  xs.filterMap fun x =>
    match x with
    | .vtype t => some t
    | _ => none

/-- Direct construction `InstanceOf(v)` / `SubclassOf(v)` / ...: the attrs
`__init__` runs the three `whitelist` validators in declaration order
(`is_frozenset`, `not_empty`, `only_types`) before the instance exists, so
any violation raises during construction. -/
def mkValidator (k : ValidatorKind) (v : PyVal) : Except PyErr TypeValidatorObj := do
  TypeValidator.is_frozenset whitelistAttr v
  TypeValidator.not_empty whitelistAttr v
  TypeValidator.only_types whitelistAttr v
  .ok { kind := k, whitelist := typesOf (pyElems v) }

/-!
### The four `__call__` implementations
-/

/-- `InstanceOf.is_instance` (lines 151-158): a generator function; the list
records the sequence of yields `isinstance(v, t)` over the whitelist. -/
def is_instance (w : List PyType) (v : PyVal) : List Bool :=
  w.map fun t => pyIsinstance v t

/-- Truthiness of a generator object: generator objects define neither
`__bool__` nor `__len__`, so Python's default applies and every generator
object is truthy, whatever it would yield. -/
def generatorTruthy (g : List Bool) : Bool := true

/-- `InstanceOf.__call__` (lines 160-174): raise unless
`any(self.is_instance(v))`. -/
def InstanceOf.call (w : List PyType) (i : PyVal) (a : Attrib) (v : PyVal) :
    Except PyErr Unit :=
  if (is_instance w v).any id then .ok ()
  else do
    let m ← format_message a "is" v "must be" (w.map PyVal.vtype)
    Except.error (.typeError [.strA m, .attrA a, .setA (w.map PyVal.vtype), .valA v])

/-- `any(self.is_subclass(v))` (lines 197-206 with `any`): `any` drives the
generator, short-circuiting at the first true yield; `issubclass` raises
when `v` is not a class, and that TypeError propagates out of `any`. -/
def any_is_subclass (w : List PyType) (v : PyVal) : Except PyErr Bool :=
  match w with
  | [] => .ok false
  | c :: rest => do
      let b ← pyIssubclass v c
      if b then .ok true else any_is_subclass rest v

/-- `SubclassOf.__call__` (lines 208-232): the internal TypeError from the
subclass test is caught and a clearer "must be a type" message is
attempted; otherwise a false result raises "must be a subclass of". Both
raise paths compute `format_message` first, whose own TypeError propagates
before the intended `raise` line is reached. -/
def SubclassOf.call (w : List PyType) (i : PyVal) (a : Attrib) (v : PyVal) :
    Except PyErr Unit :=
  match any_is_subclass w v with
  | .error _ => do
      let m ← format_message a "is" v "must be" [.vtype .typeT]
      Except.error (.typeError [.strA m, .attrA a, .valA v])
  | .ok t =>
      if t then .ok ()
      else do
        let m ← format_message a "is" v "must be a subclass of" (w.map PyVal.vtype)
        Except.error (.typeError [.strA m, .attrA a, .setA (w.map PyVal.vtype), .valA v])

/-- The element loop of `AllInstanceOf.__call__`: the test is
`if not self.is_instance(x)` — the truthiness of the generator object
returned by `is_instance`, not of its yields. -/
def AllInstanceOf.go (w : List PyType) (a : Attrib) (v : PyVal) :
    List PyVal → Except PyErr Unit
  | [] => .ok ()
  | x :: rest =>
      if generatorTruthy (is_instance w x) then AllInstanceOf.go w a v rest
      else do
        let m ← format_message a "has" x "must contain" (w.map PyVal.vtype)
        Except.error (.typeError [.strA m, .attrA a, .setA (w.map PyVal.vtype), .valA v])

/-- `AllInstanceOf.__call__` (lines 256-282): obtain an iterator (raising the
iterability error otherwise), then run the per-element loop. -/
def AllInstanceOf.call (w : List PyType) (i : PyVal) (a : Attrib) (v : PyVal) :
    Except PyErr Unit :=
  match pyIter v with
  | .error _ => do
      let m ← format_message a "is" v "must be" [.vtype .iterableT]
      Except.error (.typeError [.strA m, .attrA a, .valA v])
  | .ok g => AllInstanceOf.go w a v g

/-- The element loop of `AllSubclassOf.__call__`: both failure paths
evaluate `self.format_message(...)`, but `format_message` is a module-level
function, not a method of this slots class, so attribute lookup raises
`AttributeError` before any message or `TypeError` is built. -/
def AllSubclassOf.go (w : List PyType) : List PyVal → Except PyErr Unit
  | [] => .ok ()
  | x :: rest =>
      match any_is_subclass w x with
      | .error _ => .error (.attributeError "format_message")
      | .ok t =>
          if t then AllSubclassOf.go w rest
          else .error (.attributeError "format_message")

/-- `AllSubclassOf.__call__` (lines 307-343): the iterability failure path
also evaluates `self.format_message(...)` and hence raises
`AttributeError`. -/
def AllSubclassOf.call (w : List PyType) (i : PyVal) (a : Attrib) (v : PyVal) :
    Except PyErr Unit :=
  match pyIter v with
  | .error _ => .error (.attributeError "format_message")
  | .ok g => AllSubclassOf.go w g

/-- Dynamic dispatch of `p(i, a, v)` on the object's class. -/
def TypeValidatorObj.call (p : TypeValidatorObj) (i : PyVal) (a : Attrib) (v : PyVal) :
    Except PyErr Unit :=
  match p.kind with
  | .instanceOfK => InstanceOf.call p.whitelist i a v
  | .subclassOfK => SubclassOf.call p.whitelist i a v
  | .allInstanceOfK => AllInstanceOf.call p.whitelist i a v
  | .allSubclassOfK => AllSubclassOf.call p.whitelist i a v

/-!
### Factory functions
-/

/-- `instance_of(*args)` (lines 177-187): `InstanceOf(frozenset(args))`. -/
def instance_of (args : List PyVal) : Except PyErr TypeValidatorObj := do
  let w ← pyFrozenset args
  mkValidator .instanceOfK w

/-- `subclass_of(*args)` (lines 235-245): `SubclassOf(frozenset(args))`. -/
def subclass_of (args : List PyVal) : Except PyErr TypeValidatorObj := do
  let w ← pyFrozenset args
  mkValidator .subclassOfK w

/-- `all_instance_of(*args)` (lines 285-296):
`AllInstanceOf(frozenset(args))`. -/
def all_instance_of (args : List PyVal) : Except PyErr TypeValidatorObj := do
  let w ← pyFrozenset args
  mkValidator .allInstanceOfK w

/-- `all_subclass_of(*args)` (lines 346-357): the body returns
`SubclassOf(frozenset(args))` — the scalar subclass validator, not
`AllSubclassOf`. -/
def all_subclass_of (args : List PyVal) : Except PyErr TypeValidatorObj := do
  let w ← pyFrozenset args
  mkValidator .subclassOfK w

/-!
### Helper lemmas
-/

/-- The TypeError raised when `str.format` substitutes a generator object
into a `\x7b:s\x7d` replacement field: the error every raise path of the library
that goes through `format_message` actually surfaces. -/
def formatGenErr : PyErr :=
  .typeError [.strA "unsupported format string passed to generator.__format__"]

theorem format_message_err (a : Attrib) (s : String) (v : PyVal) (c : String)
    (t : List PyVal) : format_message a s v c t = .error formatGenErr := rfl

theorem format_message_bind (a : Attrib) (s : String) (v : PyVal) (c : String)
    (t : List PyVal) (f : String → Except PyErr Unit) :
    format_message a s v c t >>= f = .error formatGenErr := by
  rw [format_message_err]
  rfl

theorem onlyTypesGo_err (a : Attrib) (l : List PyVal)
    (h : ∃ x ∈ l, pyIsinstance x .typeT = false) :
    onlyTypesGo a l = .error formatGenErr := by
  induction l with
  | nil => simp at h
  | cons y ys ih =>
      rcases h with ⟨x, hx, hxf⟩
      by_cases hy : pyIsinstance y .typeT = true
      · rcases List.mem_cons.mp hx with rfl | hx'
        · rw [hy] at hxf
          cases hxf
        · simp only [onlyTypesGo, hy, if_true]
          exact ih ⟨x, hx', hxf⟩
      · simp only [onlyTypesGo, if_neg hy]
        exact format_message_bind _ _ _ _ _ _

theorem onlyTypesGo_ok (a : Attrib) (l : List PyVal)
    (h : ∀ x ∈ l, pyIsinstance x .typeT = true) :
    onlyTypesGo a l = .ok () := by
  induction l with
  | nil => rfl
  | cons y ys ih =>
      simp only [onlyTypesGo, h y (List.mem_cons_self y ys), if_true]
      exact ih fun x hx => h x (List.mem_cons_of_mem y hx)

theorem AllInstanceOf.go_ok (w : List PyType) (a : Attrib) (v : PyVal)
    (l : List PyVal) : AllInstanceOf.go w a v l = .ok () := by
  induction l with
  | nil => rfl
  | cons x xs ih =>
      simp only [AllInstanceOf.go, generatorTruthy, if_true]
      exact ih

theorem InstanceOf.call_eq (w : List PyType) (i : PyVal) (a : Attrib) (v : PyVal) :
    InstanceOf.call w i a v =
      if (is_instance w v).any id then .ok () else .error formatGenErr := by
  simp only [InstanceOf.call]
  split
  · rfl
  · exact format_message_bind _ _ _ _ _ _

theorem is_instance_any (w : List PyType) (v : PyVal) :
    (is_instance w v).any id = true ↔ ∃ t ∈ w, pyIsinstance v t = true := by
  simp [is_instance, List.any_eq_true, List.mem_map]

theorem mkValidator_err_of_nontype (k : ValidatorKind) (xs : List PyVal)
    (hne : xs ≠ []) (hx : ∃ x ∈ xs, pyIsinstance x .typeT = false) :
    mkValidator k (.vfrozenset (.ofList xs)) = .error formatGenErr := by
  have hlen : pyLen (PyVal.vfrozenset (.ofList xs)) > 0 := by
    simp only [pyLen, PyValList.toList_ofList]
    exact List.length_pos.mpr hne
  have helems : pyElems (PyVal.vfrozenset (.ofList xs)) = xs := by
    simp [pyElems, pyIter, PyValList.toList_ofList]
  simp only [mkValidator, TypeValidator.is_frozenset, TypeValidator.not_empty,
    TypeValidator.only_types, helems, hlen, if_true]
  have h1 : pyIsinstance (PyVal.vfrozenset (.ofList xs)) .frozensetT = true := rfl
  rw [h1]
  simp only [if_true]
  show onlyTypesGo whitelistAttr xs >>= _ = Except.error formatGenErr
  rw [onlyTypesGo_err _ _ hx]
  rfl

theorem factoryRaises (k : ValidatorKind) (args : List PyVal)
    (h : args = [] ∨ ∃ x ∈ args, pyIsinstance x .typeT = false) :
    ∃ e, (pyFrozenset args >>= mkValidator k) = .error e := by
  rcases h with rfl | ⟨x, hx, hxt⟩
  · exact ⟨formatGenErr, rfl⟩
  · cases hh : args.all pyHashable with
    | false =>
        refine ⟨.typeError [.strA "unhashable type"], ?_⟩
        simp only [pyFrozenset, hh, Bool.false_eq_true, if_false]
        rfl
    | true =>
        refine ⟨formatGenErr, ?_⟩
        have h1 : pyFrozenset args = .ok (.vfrozenset (.ofList args.dedup)) := by
          simp [pyFrozenset, hh]
        rw [h1]
        show mkValidator k (.vfrozenset (.ofList args.dedup)) = .error formatGenErr
        exact mkValidator_err_of_nontype k args.dedup
          (by simpa [List.dedup_eq_nil] using List.ne_nil_of_mem hx)
          ⟨x, List.mem_dedup.mpr hx, hxt⟩

/-!
### The claims
-/

/-- C1: the claim says `AllInstanceOf` raises iff some element of the
iterable fails the instance check. In the code the per-element test
`if not self.is_instance(x)` examines the truthiness of the generator
object itself, which is always true, so the loop can never raise: the
validator returns normally on every list, including one whose element
fails the instance check (`3` against whitelist `\x7bstr\x7d`). -/
theorem c1_allInstanceOf_element_check_dead :
    pyIsinstance (.vint 3) .strT = false
      ∧ AllInstanceOf.call [.strT] .vnone ⟨"items"⟩ (.vlist (.ofList [.vint 3])) = .ok ()
      ∧ ∀ (w : List PyType) (i : PyVal) (a : Attrib) (xs : List PyVal),
          AllInstanceOf.call w i a (.vlist (.ofList xs)) = .ok () :=
  ⟨rfl, rfl, fun w _i a xs =>
    AllInstanceOf.go_ok w a (.vlist (.ofList xs)) (PyValList.ofList xs).toList⟩

/-- C2: the claim says the message formatter returns the oxford-comma
formatted string without raising. In the code `error_message` substitutes
the generator object returned by `oxford_comma` into the `\x7b:s\x7d` field of
the template instead of joining its yields, so `format_message` always
raises the generator-format TypeError and never returns a string. -/
theorem c2_format_message_always_raises :
    ∀ (a : Attrib) (s : String) (v : PyVal) (c : String) (t : List PyVal),
      format_message a s v c t =
        .error (.typeError [.strA "unsupported format string passed to generator.__format__"]) :=
  fun _ _ _ _ _ => rfl

/-- C3: the claim says the `all_subclass_of` factory returns an
`AllSubclassOf` (all-elements) predicate over the given whitelist. The
code's body returns `SubclassOf(frozenset(args))`: the constructed object
is of the scalar `SubclassOf` class. -/
theorem c3_all_subclass_of_returns_scalar :
    all_subclass_of [.vtype .intT] = .ok ⟨.subclassOfK, [.intT]⟩
      ∧ ValidatorKind.subclassOfK ≠ ValidatorKind.allSubclassOfK :=
  ⟨rfl, by decide⟩

/-- C4: the `InstanceOf` predicate built from a non-empty whitelist, invoked
with any owner and field-descriptor, raises iff the value is an instance of
no member of the whitelist, and returns normally otherwise. (The raised
condition is the formatter's TypeError, but a condition is raised exactly
on the stated inputs.) -/
theorem c4_instanceOf_raises_iff (w : List PyType) (hw : w ≠ []) (i : PyVal)
    (a : Attrib) (v : PyVal) :
    ((∃ e, InstanceOf.call w i a v = .error e) ↔ ¬ ∃ t ∈ w, pyIsinstance v t = true)
      ∧ ((∃ t ∈ w, pyIsinstance v t = true) → InstanceOf.call w i a v = .ok ()) := by
  rw [InstanceOf.call_eq]
  by_cases hany : (is_instance w v).any id = true
  · rw [if_pos hany]
    have hex := (is_instance_any w v).mp hany
    exact ⟨⟨(fun ⟨e, he⟩ => nomatch he), fun hn => absurd hex hn⟩, fun _ => rfl⟩
  · rw [if_neg hany]
    have hnex : ¬ ∃ t ∈ w, pyIsinstance v t = true :=
      fun hex => hany ((is_instance_any w v).mpr hex)
    exact ⟨⟨fun _ => hnex, fun _ => ⟨formatGenErr, rfl⟩⟩, fun hex => absurd hex hnex⟩

/-- C4 witness: whitelist `\x7bint\x7d`, value `"a"`: the call raises and indeed
`"a"` is an instance of no whitelist member. -/
theorem c4_witness :
    (∃ e, InstanceOf.call [.intT] .vnone ⟨"x"⟩ (.vstr "a") = .error e)
      ↔ ¬ ∃ t ∈ [PyType.intT], pyIsinstance (.vstr "a") t = true :=
  (c4_instanceOf_raises_iff [.intT] (by decide) .vnone ⟨"x"⟩ (.vstr "a")).1

/-- C5: the claim says a non-type candidate produces a distinct, clearer
'must be a type' error, different from the 'must be a subclass of' error.
In the code both raise paths call `format_message`, which itself raises
first: the two cases surface the identical generator-format TypeError,
carrying neither message, so the error kinds are not distinct. -/
theorem c5_subclassOf_error_paths_collapse :
    SubclassOf.call [.intT] .vnone ⟨"x"⟩ (.vint 5) = .error formatGenErr
      ∧ SubclassOf.call [.intT] .vnone ⟨"x"⟩ (.vtype .strT) = .error formatGenErr :=
  ⟨rfl, rfl⟩

/-- C6: the claim says `AllSubclassOf` raises specific type errors for a
non-type element and for a non-subclass element. In the code both failure
paths (and the iterability path) evaluate `self.format_message`, an
attribute the slots class does not have, so an `AttributeError` is raised
instead; only the all-elements-pass and empty cases return normally. -/
theorem c6_allSubclassOf_raises_attributeError :
    AllSubclassOf.call [.intT] .vnone ⟨"x"⟩ (.vlist (.ofList [.vint 3]))
        = .error (.attributeError "format_message")
      ∧ AllSubclassOf.call [.intT] .vnone ⟨"x"⟩ (.vlist (.ofList [.vtype .strT]))
        = .error (.attributeError "format_message")
      ∧ AllSubclassOf.call [.intT] .vnone ⟨"x"⟩ (.vlist (.ofList [.vtype .boolT])) = .ok ()
      ∧ AllSubclassOf.call [.intT] .vnone ⟨"x"⟩ (.vlist .nil) = .ok () :=
  ⟨rfl, rfl, rfl, rfl⟩

/-- C7: whitelist invariant violations raise at construction time for every
factory: with zero arguments, and with at least one non-type argument; and
`instance_of(int)` constructs successfully, yielding a predicate that
accepts every integer value and rejects every string value. -/
theorem c7_construction_time_validation :
    (∀ (args : List PyVal),
        (args = [] ∨ ∃ x ∈ args, pyIsinstance x .typeT = false) →
          (∃ e, instance_of args = .error e) ∧ (∃ e, subclass_of args = .error e)
            ∧ (∃ e, all_instance_of args = .error e)
            ∧ (∃ e, all_subclass_of args = .error e))
      ∧ ∃ p, instance_of [.vtype .intT] = .ok p
          ∧ (∀ (i : PyVal) (a : Attrib) (n : Int), p.call i a (.vint n) = .ok ())
          ∧ (∀ (i : PyVal) (a : Attrib) (s : String), ∃ e, p.call i a (.vstr s) = .error e) := by
  constructor
  · intro args h
    exact ⟨factoryRaises .instanceOfK args h, factoryRaises .subclassOfK args h,
      factoryRaises .allInstanceOfK args h, factoryRaises .subclassOfK args h⟩
  · exact ⟨⟨.instanceOfK, [.intT]⟩, rfl, fun _ _ _ => rfl,
      fun _ _ _ => ⟨formatGenErr, rfl⟩⟩

/-- C7 witness: `instance_of(1, 2)` — two non-type arguments — raises during
construction. -/
theorem c7_witness : ∃ e, instance_of [.vint 1, .vint 2] = .error e :=
  (c7_construction_time_validation.1 [.vint 1, .vint 2]
    (Or.inr ⟨.vint 1, by decide, by decide⟩)).1

/-- C8: the claim says a failed `InstanceOf` check raises a condition whose
payload carries the formatted message, the whitelist and the value. In the
code the intended `raise TypeError(m, a, self.whitelist, v)` is never
reached: computing `m` itself raises, and — as the third conjunct states
for every whitelist and every failing value — the surfaced condition's
constructor arguments are exactly the one generator-format complaint
string: no formatted message, no whitelist and no value. The first two
conjuncts exhibit this end-to-end on the factory-built predicate. -/
theorem c8_error_payload_lost :
    instance_of [.vtype .intT] = .ok ⟨.instanceOfK, [.intT]⟩
      ∧ TypeValidatorObj.call ⟨.instanceOfK, [.intT]⟩ .vnone ⟨"x"⟩ (.vstr "5")
          = .error (.typeError [.strA "unsupported format string passed to generator.__format__"])
      ∧ ∀ (w : List PyType) (i : PyVal) (a : Attrib) (v : PyVal),
          (is_instance w v).any id = false →
            InstanceOf.call w i a v
              = .error (.typeError
                  [.strA "unsupported format string passed to generator.__format__"]) :=
  ⟨rfl, rfl, fun w i a v hfail => by rw [InstanceOf.call_eq, hfail]; rfl⟩

/-- C8 witness: whitelist `\x7bint\x7d`, value `"5"`: the instance check fails and
the surfaced condition carries only the format-complaint string. -/
theorem c8_witness :
    InstanceOf.call [.intT] .vnone ⟨"x"⟩ (.vstr "5")
      = .error (.typeError [.strA "unsupported format string passed to generator.__format__"]) :=
  c8_error_payload_lost.2.2 [.intT] .vnone ⟨"x"⟩ (.vstr "5") (by decide)

/-- C9: every predicate is a deterministic pure function of its class, its
whitelist and the (field-descriptor, value) input: two validator objects
agreeing on class and whitelist produce identical outcomes on the same
field and value, for any owner arguments, and (the embedding's calls being
functions) repeated invocation cannot differ or mutate anything. -/
theorem c9_call_pure (p q : TypeValidatorObj) (hk : p.kind = q.kind)
    (hw : p.whitelist = q.whitelist) (i i' : PyVal) (a : Attrib) (v : PyVal) :
    p.call i a v = q.call i' a v := by
  obtain ⟨pk, pw⟩ := p
  obtain ⟨qk, qw⟩ := q
  cases hk
  cases hw
  cases pk <;> rfl

/-- C9 witness: the same `InstanceOf` object invoked with two different
owner instances yields the same outcome. -/
theorem c9_witness :
    TypeValidatorObj.call ⟨.instanceOfK, [.intT]⟩ .vnone ⟨"x"⟩ (.vint 0)
      = TypeValidatorObj.call ⟨.instanceOfK, [.intT]⟩ (.vstr "owner") ⟨"x"⟩ (.vint 0) :=
  c9_call_pure ⟨.instanceOfK, [.intT]⟩ ⟨.instanceOfK, [.intT]⟩ rfl rfl
    .vnone (.vstr "owner") ⟨"x"⟩ (.vint 0)

/-- C10: direct construction of a validator raises unless the whitelist
argument is a frozenset: any non-frozenset value is rejected by the
container check, including a set or a list whose elements are all types,
while a frozenset of types constructs successfully. -/
theorem c10_whitelist_must_be_frozenset :
    (∀ (k : ValidatorKind) (v : PyVal), pyIsinstance v .frozensetT = false →
        ∃ e, mkValidator k v = .error e)
      ∧ (∀ k : ValidatorKind, mkValidator k (.vset (.ofList [.vtype .intT])) = .error formatGenErr)
      ∧ (∀ k : ValidatorKind, mkValidator k (.vlist (.ofList [.vtype .intT])) = .error formatGenErr)
      ∧ (∀ k : ValidatorKind, ∃ p, mkValidator k (.vfrozenset (.ofList [.vtype .intT])) = .ok p) := by
  refine ⟨fun k v hv => ⟨formatGenErr, ?_⟩, fun k => rfl, fun k => rfl,
    fun k => ⟨⟨k, [.intT]⟩, rfl⟩⟩
  simp only [mkValidator, TypeValidator.is_frozenset, hv, Bool.false_eq_true, if_false]
  rw [format_message_bind]
  rfl

/-- C10 witness: a mutable set of types is rejected at construction. -/
theorem c10_witness :
    ∃ e, mkValidator .instanceOfK (.vset (.ofList [.vtype .intT])) = .error e :=
  c10_whitelist_must_be_frozenset.1 .instanceOfK (.vset (.ofList [.vtype .intT])) (by decide)

end Attrstance
